import Mathlib

/-!
# `scripts/init-mongo.js`: the MongoDB bootstrap script

The script is a flat sequence of shell calls:

```
db = db.getSiblingDB('calmou_db');                        -- line 5
db.createUser({ user: 'calmou_app', pwd: 'calmou_app_2024',
                roles: [ { role: 'readWrite', db: 'calmou_db' } ] });   -- lines 8-17
print(...); print(...);                                   -- lines 19-20
db.createCollection('usuarios');                          -- line 23
db.createCollection('meditacoes');                        -- line 24
print(...); print(...);                                   -- lines 26-27
```

The script itself is embedded statement by statement (`initMongo`).  The shell
methods it calls belong to the MongoDB shell and server, which are not part of
the repository; they are modelled here after their documented behaviour:

* users are identified by (authentication database, user name); `createUser`
  fails when that pair is already taken and otherwise stores the user; user
  records are kept in the engine's own user store and are no content of their
  authentication database, which exists only once it holds a collection;
* `createCollection` creates a collection with the given options and the
  automatic `_id_` index; on an existing name it fails (`NamespaceExists`), or,
  on servers whose `create` command is idempotent, succeeds without change when
  the options are the same;
* any command may also be rejected by the engine for the connection in use
  (`Conn.denied`), which covers authorisation failures and injected faults;
* a failed command is thrown as a JavaScript exception; the script has no
  `try`/`catch`, so an exception ends the run at that statement.
-/

namespace InitMongo

/-! ## Engine data model -/

/-- A role granted on a database: `{ role: ..., db: ... }`. -/
structure RoleGrant where
  role : String
  db : String
deriving DecidableEq

/-- A stored user.  The stored credential is represented by the password it was
derived from. -/
structure User where
  user : String
  credential : String
  roles : List RoleGrant
deriving DecidableEq

/-- A stored document, as a list of fields. -/
abbrev Document := List (String × String)

/-- A stored collection. -/
structure Collection where
  name : String
  validator : Option String
  indexes : List String
  docs : List Document
deriving DecidableEq

/-- The durable state of the engine: users keyed by authentication database and
collections keyed by database.  A database has no record of its own: it is
addressed by name and materialises with its first collection. -/
structure Engine where
  users : List (String × User)
  collections : List (String × Collection)
deriving DecidableEq

/-- The engine with no users, no collections and hence no databases. -/
def Engine.empty : Engine := ⟨[], []⟩

/-- The user `name` of authentication database `db`, if any. -/
def Engine.findUser (e : Engine) (db name : String) : Option User :=
  (e.users.find? fun p => decide (p.1 = db ∧ p.2.user = name)).map Prod.snd

/-- The collection `name` of database `db`, if any. -/
def Engine.findCollection (e : Engine) (db name : String) : Option Collection :=
  (e.collections.find? fun p => decide (p.1 = db ∧ p.2.name = name)).map Prod.snd

/-- Whether database `db` exists: it does once it holds a collection.  A user
record does not materialise its authentication database. -/
def Engine.hasDatabase (e : Engine) (db : String) : Bool :=
  e.collections.any fun p => decide (p.1 = db)

/-- All users of authentication database `db`. -/
def Engine.usersOf (e : Engine) (db : String) : List User :=
  (e.users.filter fun p => decide (p.1 = db)).map Prod.snd

/-- All collections of database `db`. -/
def Engine.collectionsOf (e : Engine) (db : String) : List Collection :=
  (e.collections.filter fun p => decide (p.1 = db)).map Prod.snd

/-! ## Commands, errors and the connection -/

/-- An object a create call is about. -/
inductive ObjectRef
  | principal (db name : String)
  | collection (db name : String)
deriving DecidableEq

/-- Errors a create call can raise. -/
inductive MongoError
  | unauthorized
  | roleNotFound
  | namespaceExists
  | userAlreadyExists
  | missingPwd
deriving DecidableEq

/-- The connection the script runs on: whether the server's `create` command is
idempotent, which objects the engine refuses to create for this connection, and
the process environment visible to the shell. -/
structure Conn where
  idempotentCreate : Bool
  denied : List ObjectRef
  env : List (String × String)

/-- The JavaScript expressions that can stand in a `pwd` field: a string literal
or a lookup `process.env.NAME`. -/
inductive JsExpr
  | strLit (s : String)
  | envVar (name : String)
deriving DecidableEq

/-- Value of a `pwd` expression; `none` is JavaScript's `undefined`. -/
def JsExpr.eval (env : List (String × String)) : JsExpr → Option String
  | .strLit s => some s
  | .envVar n => env.lookup n

/-- Whether the expression is a reference resolved at run time. -/
def JsExpr.isSecretRef : JsExpr → Bool
  | .strLit _ => false
  | .envVar _ => true

/-- The plaintext an expression embeds in the source, if any. -/
def JsExpr.plaintext : JsExpr → Option String
  | .strLit s => some s
  | .envVar _ => none

/-- The argument of `db.createUser`. -/
structure UserDescriptor where
  user : String
  pwd : JsExpr
  roles : List RoleGrant
deriving DecidableEq

/-- The optional second argument of `db.createCollection`. -/
structure CreateOptions where
  validator : Option String
deriving DecidableEq

/-- The validator requested by a `createCollection` call; none when the call
gives the name alone. -/
def requestedValidator : Option CreateOptions → Option String
  | none => none
  | some o => o.validator

/-- Roles every database has built in. -/
def builtinRoles : List String := ["read", "readWrite", "dbAdmin", "dbOwner", "userAdmin"]

/-- The collection a successful `create` stores: the requested validator, the
automatic `_id_` index, no documents. -/
def newCollection (name : String) (options : Option CreateOptions) : Collection :=
  { name := name, validator := requestedValidator options, indexes := ["_id_"], docs := [] }

/-- Engine command `createUser` on database `db`. -/
def Engine.createUser (conn : Conn) (e : Engine) (db : String) (u : User) :
    Except MongoError Engine :=
  if ObjectRef.principal db u.user ∈ conn.denied then .error .unauthorized
  else if u.roles.any (fun g => decide (g.role ∉ builtinRoles)) then .error .roleNotFound
  else if (e.findUser db u.user).isSome then .error .userAlreadyExists
  else .ok { e with users := e.users ++ [(db, u)] }

/-- Engine command `create` (create a collection) on database `db`. -/
def Engine.createCollection (conn : Conn) (e : Engine) (db name : String)
    (options : Option CreateOptions) : Except MongoError Engine :=
  if ObjectRef.collection db name ∈ conn.denied then .error .unauthorized
  else
    match e.findCollection db name with
    | some c =>
      if conn.idempotentCreate && decide (c.validator = requestedValidator options) then .ok e
      else .error .namespaceExists
    | none => .ok { e with collections := e.collections ++ [(db, newCollection name options)] }

/-! ## The shell -/

/-- A create call as issued by the script. -/
inductive Cmd
  | createUser (db : String) (doc : UserDescriptor)
  | createCollection (db name : String) (options : Option CreateOptions)
deriving DecidableEq

/-- The object a call is about. -/
def Cmd.target : Cmd → ObjectRef
  | .createUser db doc => .principal db doc.user
  | .createCollection db name _ => .collection db name

/-- What a run does, in order: create calls with their result (`none` is
success) and printed lines. -/
inductive Event
  | call (cmd : Cmd) (err : Option MongoError)
  | print (msg : String)
deriving DecidableEq

/-- State of the shell during a run: the engine behind the connection, the
database the global `db` refers to, and what happened so far. -/
structure Shell where
  engine : Engine
  db : String
  trace : List Event
deriving DecidableEq

/-- How a statement ends: normally with a value, or with an uncaught exception. -/
inductive Completion (α : Type)
  | normal (a : α)
  | thrown (e : MongoError)
deriving DecidableEq

/-- A shell computation. -/
def Script (α : Type) : Type := Conn → Shell → Completion α × Shell

/-- Sequencing of statements: an exception skips what follows. -/
def Script.bind {α β : Type} (m : Script α) (f : α → Script β) : Script β :=
  fun conn s =>
    match m conn s with
    | (.normal a, s') => f a conn s'
    | (.thrown e, s') => (.thrown e, s')

instance : Monad Script where
  pure a := fun _ s => (.normal a, s)
  bind := Script.bind

/-- The method `db.getSiblingDB(name)`: a handle on the named database; nothing is sent to
the engine. -/
def getSiblingDB (name : String) : Script String :=
  fun _ s => (.normal name, s)

/-- The assignment `db = ...`. -/
def assignDb (handle : String) : Script Unit :=
  fun _ s => (.normal (), { s with db := handle })

/-- The method `db.createUser(doc)` on the current `db`. -/
def createUser (doc : UserDescriptor) : Script Unit :=
  fun conn s =>
    let cmd := Cmd.createUser s.db doc
    match doc.pwd.eval conn.env with
    | none => (.thrown .missingPwd, { s with trace := s.trace ++ [.call cmd (some .missingPwd)] })
    | some pwd =>
      match s.engine.createUser conn s.db ⟨doc.user, pwd, doc.roles⟩ with
      | .error err => (.thrown err, { s with trace := s.trace ++ [.call cmd (some err)] })
      | .ok e => (.normal (), { s with engine := e, trace := s.trace ++ [.call cmd none] })

/-- The method `db.createCollection(name, options)` on the current `db`. -/
def createCollection (name : String) (options : Option CreateOptions) : Script Unit :=
  fun conn s =>
    let cmd := Cmd.createCollection s.db name options
    match s.engine.createCollection conn s.db name options with
    | .error err => (.thrown err, { s with trace := s.trace ++ [.call cmd (some err)] })
    | .ok e => (.normal (), { s with engine := e, trace := s.trace ++ [.call cmd none] })

/-- The shell function `print(msg)`. -/
def print (msg : String) : Script Unit :=
  fun _ s => (.normal (), { s with trace := s.trace ++ [.print msg] })

/-! ## The script -/

/-- Line 19. -/
def msgDatabase : String := "✅ Banco de dados calmou_db criado"
/-- Line 20. -/
def msgUser : String := "✅ Usuário calmou_app criado com permissões readWrite"
/-- Line 26. -/
def msgCollections : String := "✅ Coleções usuarios e meditacoes criadas"
/-- Line 27. -/
def msgSuccess : String := "🚀 MongoDB inicializado com sucesso!"

/-- The descriptor of lines 8-17. -/
def appUser : UserDescriptor :=
  { user := "calmou_app"
    pwd := .strLit "calmou_app_2024"
    roles := [{ role := "readWrite", db := "calmou_db" }] }

/-- The script `init-mongo.js`. -/
def initMongo : Script Unit := do
  assignDb (← getSiblingDB "calmou_db")
  createUser appUser
  print msgDatabase
  print msgUser
  createCollection "usuarios" none
  createCollection "meditacoes" none
  print msgCollections
  print msgSuccess

/-- Lines 5-19 of the script: its statements up to and including the line that
reports the database as created. -/
def initMongoToLine19 : Script Unit := do
  assignDb (← getSiblingDB "calmou_db")
  createUser appUser
  print msgDatabase

/-- Lines 20-27 of the script. -/
def initMongoFromLine20 : Script Unit := do
  print msgUser
  createCollection "usuarios" none
  createCollection "meditacoes" none
  print msgCollections
  print msgSuccess

/-- One run of the script against engine state `e`, the global `db` initially
referring to `db0`. -/
def run (conn : Conn) (e : Engine) (db0 : String) : Completion Unit × Shell :=
  initMongo conn { engine := e, db := db0, trace := [] }

/-- Exit status of the shell process: 0 on normal completion, 1 on an uncaught
exception. -/
def exitStatus {α : Type} : Completion α → Nat
  | .normal _ => 0
  | .thrown _ => 1

/-- The create calls of a trace, in order, with their results. -/
def calls : List Event → List (Cmd × Option MongoError)
  | [] => []
  | .call cmd err :: t => (cmd, err) :: calls t
  | .print _ :: t => calls t

/-- The printed lines of a trace, in order. -/
def prints : List Event → List String
  | [] => []
  | .call _ _ :: t => prints t
  | .print msg :: t => msg :: prints t

/-- The three calls of the script. -/
def callUser : Cmd := .createUser "calmou_db" appUser
/-- Line 23. -/
def callUsuarios : Cmd := .createCollection "calmou_db" "usuarios" none
/-- Line 24. -/
def callMeditacoes : Cmd := .createCollection "calmou_db" "meditacoes" none

/-- The user record the script asks the engine to store. -/
def appUserStored : User :=
  { user := "calmou_app", credential := "calmou_app_2024",
    roles := [{ role := "readWrite", db := "calmou_db" }] }

/-- A connection on which the engine refuses nothing. -/
def plainConn (idem : Bool) (env : List (String × String)) : Conn :=
  { idempotentCreate := idem, denied := [], env := env }

/-- A connection on which the engine refuses to create `usuarios` in `calmou_db`. -/
def refusingUsuarios : Conn :=
  { idempotentCreate := true, denied := [.collection "calmou_db" "usuarios"], env := [] }

/-! ## Engine states used as instances -/

/-- Engine in which `calmou_app` already exists in `calmou_db`, with another
credential and no grant. -/
def engineWithUser : Engine :=
  ⟨[("calmou_db", { user := "calmou_app", credential := "old_secret", roles := [] })], []⟩

/-- Engine in which `usuarios` already exists in `calmou_db` with a validator and
one document. -/
def engineWithUsuarios : Engine :=
  ⟨[], [("calmou_db", { name := "usuarios", validator := some "email: string",
                        indexes := ["_id_", "email_1"], docs := [[("email", "a@b.c")]] })]⟩

/-- Engine with objects the script has no business with: a user and a collection
in another database, and in `calmou_db` another user, another collection and a
populated `usuarios`. -/
def enginePopulated : Engine :=
  ⟨[("admin", { user := "root", credential := "r00t", roles := [⟨"dbOwner", "admin"⟩] }),
    ("calmou_db", { user := "report", credential := "r3port", roles := [⟨"read", "calmou_db"⟩] })],
   [("loja", { name := "pedidos", validator := none, indexes := ["_id_"],
               docs := [[("id", "1")]] }),
    ("calmou_db", { name := "humor", validator := none, indexes := ["_id_"],
                    docs := [[("nota", "5")]] }),
    ("calmou_db", { name := "usuarios", validator := none, indexes := ["_id_", "email_1"],
                    docs := [[("email", "a@b.c")], [("email", "d@e.f")]] })]⟩

/-! ## The run, statement by statement -/

/-- The run spelled out: each create call either throws, which ends the run with
the state reached so far, or hands over to the next statement. -/
theorem run_eq (conn : Conn) (e : Engine) (db0 : String) :
    run conn e db0 =
      match Engine.createUser conn e "calmou_db" appUserStored with
      | .error err => (.thrown err, ⟨e, "calmou_db", [.call callUser (some err)]⟩)
      | .ok e1 =>
        match Engine.createCollection conn e1 "calmou_db" "usuarios" none with
        | .error err =>
          (.thrown err, ⟨e1, "calmou_db",
            [.call callUser none, .print msgDatabase, .print msgUser,
             .call callUsuarios (some err)]⟩)
        | .ok e2 =>
          match Engine.createCollection conn e2 "calmou_db" "meditacoes" none with
          | .error err =>
            (.thrown err, ⟨e2, "calmou_db",
              [.call callUser none, .print msgDatabase, .print msgUser,
               .call callUsuarios none, .call callMeditacoes (some err)]⟩)
          | .ok e3 =>
            (.normal (), ⟨e3, "calmou_db",
              [.call callUser none, .print msgDatabase, .print msgUser,
               .call callUsuarios none, .call callMeditacoes none,
               .print msgCollections, .print msgSuccess]⟩) := by
  simp only [run, initMongo, bind, Script.bind, getSiblingDB, assignDb, createUser, appUser,
    JsExpr.eval, appUserStored, callUser]
  cases h1 : Engine.createUser conn e "calmou_db"
      ⟨"calmou_app", "calmou_app_2024", [⟨"readWrite", "calmou_db"⟩]⟩ with
  | error err => simp
  | ok e1 =>
    simp only [print, createCollection, callUsuarios, callMeditacoes]
    cases h2 : Engine.createCollection conn e1 "calmou_db" "usuarios" none with
    | error err => simp
    | ok e2 =>
      simp only []
      cases h3 : Engine.createCollection conn e2 "calmou_db" "meditacoes" none with
      | error err => simp
      | ok e3 => simp

/-! ## Facts about the engine commands -/

/-- Looking a user up after one was stored at the end. -/
theorem findUser_stored (e : Engine) (db : String) (u : User) (d n : String) :
    Engine.findUser { e with users := e.users ++ [(db, u)] } d n =
      (e.findUser d n).or (if db = d ∧ u.user = n then some u else none) := by
  simp only [Engine.findUser, List.find?_append, Option.map_or', List.find?_singleton]
  by_cases h : db = d ∧ u.user = n <;> simp [h]

/-- Looking a collection up after one was stored at the end. -/
theorem findCollection_stored (e : Engine) (db : String) (c : Collection) (d n : String) :
    Engine.findCollection { e with collections := e.collections ++ [(db, c)] } d n =
      (e.findCollection d n).or (if db = d ∧ c.name = n then some c else none) := by
  simp only [Engine.findCollection, List.find?_append, Option.map_or', List.find?_singleton]
  by_cases h : db = d ∧ c.name = n <;> simp [h]

/-- The users of a database after one was stored at the end. -/
theorem usersOf_stored (e : Engine) (db : String) (u : User) (d : String) :
    Engine.usersOf { e with users := e.users ++ [(db, u)] } d =
      e.usersOf d ++ (if db = d then [u] else []) := by
  simp only [Engine.usersOf, List.filter_append, List.map_append]
  by_cases h : db = d <;> simp [h, List.filter]

/-- The collections of a database after one was stored at the end. -/
theorem collectionsOf_stored (e : Engine) (db : String) (c : Collection) (d : String) :
    Engine.collectionsOf { e with collections := e.collections ++ [(db, c)] } d =
      e.collectionsOf d ++ (if db = d then [c] else []) := by
  simp only [Engine.collectionsOf, List.filter_append, List.map_append]
  by_cases h : db = d <;> simp [h, List.filter]

/-- A successful `createUser` found the name free and stored the user. -/
theorem createUser_ok {conn : Conn} {e e1 : Engine} {db : String} {u : User}
    (h : Engine.createUser conn e db u = .ok e1) :
    e.findUser db u.user = none ∧ e1 = { e with users := e.users ++ [(db, u)] } := by
  unfold Engine.createUser at h
  split_ifs at h with h1 h2 h3
  · simp only [Option.not_isSome_iff_eq_none] at h3
    injection h with h
    exact ⟨h3, h.symm⟩

/-- On a taken name `createUser` fails. -/
theorem createUser_taken (conn : Conn) {e : Engine} {db : String} {u x : User}
    (h : e.findUser db u.user = some x) :
    ∃ err, Engine.createUser conn e db u = .error err := by
  unfold Engine.createUser
  split_ifs with h1 h2 h3
  · exact ⟨_, rfl⟩
  · exact ⟨_, rfl⟩
  · exact ⟨_, rfl⟩
  · simp [h] at h3

/-- A successful `create` either found the collection and changed nothing, or
found the name free and stored a new collection. -/
theorem createCollection_ok {conn : Conn} {e e1 : Engine} {db name : String}
    {options : Option CreateOptions}
    (h : Engine.createCollection conn e db name options = .ok e1) :
    (e1 = e ∧ (e.findCollection db name).isSome) ∨
    (e.findCollection db name = none ∧
      e1 = { e with collections := e.collections ++ [(db, newCollection name options)] }) := by
  unfold Engine.createCollection at h
  split_ifs at h with h1
  split at h
  · rename_i c hc
    split_ifs at h with h2
    injection h with h
    exact Or.inl ⟨h.symm, by simp [hc]⟩
  · rename_i hc
    injection h with h
    exact Or.inr ⟨hc, h.symm⟩

/-- The four ways a run can go. -/
theorem run_cases (conn : Conn) (e : Engine) (db0 : String) :
    (∃ err, Engine.createUser conn e "calmou_db" appUserStored = .error err ∧
      run conn e db0 = (.thrown err, ⟨e, "calmou_db", [.call callUser (some err)]⟩)) ∨
    (∃ e1 err, Engine.createUser conn e "calmou_db" appUserStored = .ok e1 ∧
      Engine.createCollection conn e1 "calmou_db" "usuarios" none = .error err ∧
      run conn e db0 = (.thrown err, ⟨e1, "calmou_db",
        [.call callUser none, .print msgDatabase, .print msgUser,
         .call callUsuarios (some err)]⟩)) ∨
    (∃ e1 e2 err, Engine.createUser conn e "calmou_db" appUserStored = .ok e1 ∧
      Engine.createCollection conn e1 "calmou_db" "usuarios" none = .ok e2 ∧
      Engine.createCollection conn e2 "calmou_db" "meditacoes" none = .error err ∧
      run conn e db0 = (.thrown err, ⟨e2, "calmou_db",
        [.call callUser none, .print msgDatabase, .print msgUser,
         .call callUsuarios none, .call callMeditacoes (some err)]⟩)) ∨
    (∃ e1 e2 e3, Engine.createUser conn e "calmou_db" appUserStored = .ok e1 ∧
      Engine.createCollection conn e1 "calmou_db" "usuarios" none = .ok e2 ∧
      Engine.createCollection conn e2 "calmou_db" "meditacoes" none = .ok e3 ∧
      run conn e db0 = (.normal (), ⟨e3, "calmou_db",
        [.call callUser none, .print msgDatabase, .print msgUser,
         .call callUsuarios none, .call callMeditacoes none,
         .print msgCollections, .print msgSuccess]⟩)) := by
  rw [run_eq]
  cases h1 : Engine.createUser conn e "calmou_db" appUserStored with
  | error err => exact Or.inl ⟨err, rfl, rfl⟩
  | ok e1 =>
    cases h2 : Engine.createCollection conn e1 "calmou_db" "usuarios" none with
    | error err => exact Or.inr (Or.inl ⟨e1, err, rfl, h2, by simp [h2]⟩)
    | ok e2 =>
      cases h3 : Engine.createCollection conn e2 "calmou_db" "meditacoes" none with
      | error err => exact Or.inr (Or.inr (Or.inl ⟨e1, e2, err, rfl, h2, h3, by simp [h2, h3]⟩))
      | ok e3 => exact Or.inr (Or.inr (Or.inr ⟨e1, e2, e3, rfl, h2, h3, by simp [h2, h3]⟩))

/-- On a connection that is refused nothing, `createUser` on the empty engine
stores the user. -/
theorem createUser_on_empty (idem : Bool) (env : List (String × String)) :
    Engine.createUser (plainConn idem env) Engine.empty "calmou_db" appUserStored =
      .ok ⟨[("calmou_db", appUserStored)], []⟩ := by
  simp [Engine.createUser, plainConn, appUserStored, builtinRoles, Engine.findUser, Engine.empty]

/-- A second `createUser` for a stored user fails with "user already exists". -/
theorem createUser_again {conn : Conn} {e e1 e2 : Engine} {db : String} {u x : User}
    (h : Engine.createUser conn e db u = .ok e1) (hx : e2.findUser db u.user = some x) :
    Engine.createUser conn e2 db u = .error .userAlreadyExists := by
  unfold Engine.createUser at h ⊢
  split_ifs at h with h1 h2 h3
  rw [if_neg h1, if_neg h2, if_pos (by simp [hx])]

/-- A successful `create` leaves the users alone. -/
theorem createCollection_users {conn : Conn} {e e1 : Engine} {db name : String}
    {options : Option CreateOptions}
    (h : Engine.createCollection conn e db name options = .ok e1) : e1.users = e.users := by
  rcases createCollection_ok h with ⟨h1, _⟩ | ⟨_, h1⟩ <;> simp [h1]

/-- Users are looked up in the user list only. -/
theorem findUser_congr {e1 e2 : Engine} (h : e1.users = e2.users) (d n : String) :
    e1.findUser d n = e2.findUser d n := by
  simp only [Engine.findUser, h]

/-- After a run that completed normally the user of the script is stored. -/
theorem run_normal_user {conn : Conn} {e : Engine} {db0 : String}
    (h : (run conn e db0).1 = .normal ()) :
    (∃ e1, Engine.createUser conn e "calmou_db" appUserStored = .ok e1) ∧
    (run conn e db0).2.engine.findUser "calmou_db" "calmou_app" = some appUserStored := by
  rcases run_cases conn e db0 with ⟨err, _, hr⟩ | ⟨e1, err, _, _, hr⟩ |
    ⟨e1, e2, err, _, _, _, hr⟩ | ⟨e1, e2, e3, h1, h2, h3, hr⟩
  · rw [hr] at h; cases h
  · rw [hr] at h; cases h
  · rw [hr] at h; cases h
  · refine ⟨⟨e1, h1⟩, ?_⟩
    rw [hr]
    have hu : e3.users = e.users ++ [("calmou_db", appUserStored)] := by
      rw [createCollection_users h3, createCollection_users h2, (createUser_ok h1).2]
    have hf := (createUser_ok h1).1
    have : e3.findUser "calmou_db" "calmou_app" =
        Engine.findUser { e with users := e.users ++ [("calmou_db", appUserStored)] }
          "calmou_db" "calmou_app" := findUser_congr hu _ _
    rw [this, findUser_stored]
    simp only [appUserStored] at hf ⊢
    simp [hf]

/-- When `calmou_app` already exists in `calmou_db` the run ends at `createUser`
and the engine state is the initial one. -/
theorem run_of_existing_user (conn : Conn) {e : Engine} (db0 : String) {u : User}
    (h : e.findUser "calmou_db" "calmou_app" = some u) :
    ∃ err, run conn e db0 = (.thrown err, ⟨e, "calmou_db", [.call callUser (some err)]⟩) := by
  obtain ⟨err, herr⟩ := @createUser_taken conn e "calmou_db" appUserStored u h
  exact ⟨err, by rw [run_eq, herr]⟩

/-! ## What a run adds to the engine -/

/-- Collections are looked up in the collection list only. -/
theorem findCollection_congr {e1 e2 : Engine} (h : e1.collections = e2.collections)
    (d n : String) : e1.findCollection d n = e2.findCollection d n := by
  simp only [Engine.findCollection, h]

/-- A name free in a longer collection list is free in the shorter one. -/
theorem findCollection_free_of_append {e1 e : Engine} (cs : List (String × Collection))
    (h : e1.collections = e.collections ++ cs) {d n : String}
    (hf : e1.findCollection d n = none) : e.findCollection d n = none := by
  simp only [Engine.findCollection, h, List.find?_append, Option.map_eq_none',
    Option.or_eq_none] at hf ⊢
  exact hf.1

/-- A successful `create` appends at most the new collection, and only on a free
name. -/
theorem createCollection_appends {conn : Conn} {e e1 : Engine} {db name : String}
    {options : Option CreateOptions}
    (h : Engine.createCollection conn e db name options = .ok e1) :
    ∃ cs, e1 = ⟨e.users, e.collections ++ cs⟩ ∧
      ∀ p ∈ cs, p = (db, newCollection name options) ∧ e.findCollection db name = none := by
  rcases createCollection_ok h with ⟨h1, _⟩ | ⟨hf, h1⟩
  · exact ⟨[], by simp [h1], by simp⟩
  · exact ⟨[(db, newCollection name options)], h1, by simp [hf]⟩

/-- The engine after a run: the initial users and collections, followed by at
most the user of the script and at most the two collections of the script, each
added only where the name was free. -/
theorem run_engine_shape (conn : Conn) (e : Engine) (db0 : String) :
    ∃ us cs, (run conn e db0).2.engine = ⟨e.users ++ us, e.collections ++ cs⟩ ∧
      (∀ p ∈ us, p = ("calmou_db", appUserStored) ∧
        e.findUser "calmou_db" "calmou_app" = none) ∧
      (∀ p ∈ cs,
        (p = ("calmou_db", newCollection "usuarios" none) ∧
          e.findCollection "calmou_db" "usuarios" = none) ∨
        (p = ("calmou_db", newCollection "meditacoes" none) ∧
          e.findCollection "calmou_db" "meditacoes" = none)) := by
  rcases run_cases conn e db0 with ⟨err, _, hr⟩ | ⟨e1, err, h1, _, hr⟩ |
    ⟨e1, e2, err, h1, h2, _, hr⟩ | ⟨e1, e2, e3, h1, h2, h3, hr⟩
  · exact ⟨[], [], by rw [hr]; simp, by simp, by simp⟩
  · obtain ⟨hf, rfl⟩ := createUser_ok h1
    exact ⟨[("calmou_db", appUserStored)], [], by rw [hr]; simp,
      by simpa [appUserStored] using hf, by simp⟩
  · obtain ⟨hf, rfl⟩ := createUser_ok h1
    obtain ⟨cs2, rfl, hcs2⟩ := createCollection_appends h2
    refine ⟨[("calmou_db", appUserStored)], cs2, by rw [hr], by simpa [appUserStored] using hf,
      fun p hp => Or.inl ⟨(hcs2 p hp).1, ?_⟩⟩
    rw [← (hcs2 p hp).2]
    exact findCollection_congr rfl _ _
  · obtain ⟨hf, rfl⟩ := createUser_ok h1
    obtain ⟨cs2, rfl, hcs2⟩ := createCollection_appends h2
    obtain ⟨cs3, rfl, hcs3⟩ := createCollection_appends h3
    refine ⟨[("calmou_db", appUserStored)], cs2 ++ cs3, by rw [hr]; simp,
      by simpa [appUserStored] using hf, fun p hp => ?_⟩
    rcases List.mem_append.mp hp with hp | hp
    · refine Or.inl ⟨(hcs2 p hp).1, ?_⟩
      rw [← (hcs2 p hp).2]
      exact findCollection_congr rfl _ _
    · exact Or.inr ⟨(hcs3 p hp).1, findCollection_free_of_append cs2 rfl (hcs3 p hp).2⟩

/-- Looking a collection up after a run: the answer is the initial one, or the
name was free and is now one of the two collections of the script, as created. -/
theorem run_findCollection (conn : Conn) (e : Engine) (db0 d n : String) :
    (run conn e db0).2.engine.findCollection d n = e.findCollection d n ∨
    (e.findCollection d n = none ∧ d = "calmou_db" ∧ (n = "usuarios" ∨ n = "meditacoes") ∧
      (run conn e db0).2.engine.findCollection d n = some (newCollection n none)) := by
  obtain ⟨us, cs, hr, _, hcs⟩ := run_engine_shape conn e db0
  rw [hr]
  cases he : e.findCollection d n with
  | some c =>
    left
    simp only [Engine.findCollection, List.find?_append, Option.map_or'] at he ⊢
    rw [he]; rfl
  | none =>
    cases hc : cs.find? (fun p => decide (p.1 = d ∧ p.2.name = n)) with
    | none =>
      left
      simp only [Engine.findCollection, List.find?_append, Option.map_or'] at he ⊢
      rw [he, hc]; rfl
    | some p =>
      right
      have hmem := List.mem_of_find?_eq_some hc
      have hp := List.find?_some hc
      simp only [decide_eq_true_eq] at hp
      have hfind : Engine.findCollection ⟨e.users ++ us, e.collections ++ cs⟩ d n = some p.2 := by
        simp only [Engine.findCollection, List.find?_append, Option.map_or'] at he ⊢
        rw [he, hc]; rfl
      rcases hcs p hmem with ⟨rfl, _⟩ | ⟨rfl, _⟩
      · obtain ⟨rfl, rfl⟩ := hp
        exact ⟨rfl, rfl, Or.inl rfl, hfind⟩
      · obtain ⟨rfl, rfl⟩ := hp
        exact ⟨rfl, rfl, Or.inr rfl, hfind⟩

/-- Looking a user up after a run: the answer is the initial one, or the name was
free and is now the user of the script. -/
theorem run_findUser (conn : Conn) (e : Engine) (db0 d n : String) :
    (run conn e db0).2.engine.findUser d n = e.findUser d n ∨
    (e.findUser d n = none ∧ d = "calmou_db" ∧ n = "calmou_app" ∧
      (run conn e db0).2.engine.findUser d n = some appUserStored) := by
  obtain ⟨us, cs, hr, hus, _⟩ := run_engine_shape conn e db0
  rw [hr]
  cases he : e.findUser d n with
  | some c =>
    left
    simp only [Engine.findUser, List.find?_append, Option.map_or'] at he ⊢
    rw [he]; rfl
  | none =>
    cases hc : us.find? (fun p => decide (p.1 = d ∧ p.2.user = n)) with
    | none =>
      left
      simp only [Engine.findUser, List.find?_append, Option.map_or'] at he ⊢
      rw [he, hc]; rfl
    | some p =>
      right
      have hmem := List.mem_of_find?_eq_some hc
      have hp := List.find?_some hc
      simp only [decide_eq_true_eq] at hp
      have hfind : Engine.findUser ⟨e.users ++ us, e.collections ++ cs⟩ d n = some p.2 := by
        simp only [Engine.findUser, List.find?_append, Option.map_or'] at he ⊢
        rw [he, hc]; rfl
      obtain ⟨rfl, _⟩ := hus p hmem
      obtain ⟨rfl, rfl⟩ := hp
      exact ⟨rfl, rfl, rfl, hfind⟩

/-! ## The claims -/

/-- C1: on the empty engine, with nothing refused by the engine, one run completes
normally; all three create calls succeed; afterwards the engine holds exactly the
principal `calmou_app` of `calmou_db`, with the single grant `readWrite` scoped
to the database `db` was set to by `getSiblingDB`, and exactly the collections
`usuarios` and `meditacoes` of `calmou_db`, none of which existed before. -/
theorem first_run_on_empty_engine (idem : Bool) (env : List (String × String)) (db0 : String) :
    (run (plainConn idem env) Engine.empty db0).1 = .normal () ∧
    calls (run (plainConn idem env) Engine.empty db0).2.trace =
      [(callUser, none), (callUsuarios, none), (callMeditacoes, none)] ∧
    (run (plainConn idem env) Engine.empty db0).2.db = "calmou_db" ∧
    (run (plainConn idem env) Engine.empty db0).2.engine.usersOf "calmou_db" =
      [{ user := "calmou_app", credential := "calmou_app_2024",
         roles := [{ role := "readWrite",
                     db := (run (plainConn idem env) Engine.empty db0).2.db }] }] ∧
    ((run (plainConn idem env) Engine.empty db0).2.engine.collectionsOf "calmou_db").map
      Collection.name = ["usuarios", "meditacoes"] ∧
    (run (plainConn idem env) Engine.empty db0).2.engine =
      ⟨[("calmou_db", appUserStored)],
       [("calmou_db", newCollection "usuarios" none),
        ("calmou_db", newCollection "meditacoes" none)]⟩ ∧
    Engine.empty.findUser "calmou_db" "calmou_app" = none ∧
    Engine.empty.findCollection "calmou_db" "usuarios" = none ∧
    Engine.empty.findCollection "calmou_db" "meditacoes" = none := by
  have hrun : run (plainConn idem env) Engine.empty db0 =
      (.normal (), ⟨⟨[("calmou_db", appUserStored)],
          [("calmou_db", newCollection "usuarios" none),
           ("calmou_db", newCollection "meditacoes" none)]⟩, "calmou_db",
        [.call callUser none, .print msgDatabase, .print msgUser,
         .call callUsuarios none, .call callMeditacoes none,
         .print msgCollections, .print msgSuccess]⟩) := by
    rw [run_eq, createUser_on_empty]
    simp [Engine.createCollection, plainConn, Engine.findCollection, newCollection]
  rw [hrun]
  refine ⟨rfl, rfl, rfl, ?_, ?_, rfl, rfl, rfl, rfl⟩
  · decide
  · decide

/-- C2 (as stated, refuted): after a first run on the empty engine that completed
normally, the second run does fail a step: `createUser` throws "user already
exists", the run exits with status 1 and neither collection is reported. -/
theorem second_run_fails_createUser :
    (run (plainConn true []) Engine.empty "test").1 = .normal () ∧
    (run (plainConn true []) (run (plainConn true []) Engine.empty "test").2.engine "test").1 =
      .thrown .userAlreadyExists ∧
    exitStatus
      (run (plainConn true []) (run (plainConn true []) Engine.empty "test").2.engine "test").1
      = 1 ∧
    calls (run (plainConn true [])
      (run (plainConn true []) Engine.empty "test").2.engine "test").2.trace =
      [(callUser, some .userAlreadyExists)] := by
  decide

/-- C2 (amended): after a run that completed normally, a second run on the same
connection throws "user already exists" at `createUser`, issues no other call,
prints nothing, and leaves the engine state equal to the state after the first
run, so no object is duplicated. -/
theorem second_run_aborts_unchanged (conn : Conn) (e : Engine) (db0 db1 : String)
    (h : (run conn e db0).1 = .normal ()) :
    run conn (run conn e db0).2.engine db1 =
      (.thrown .userAlreadyExists,
        ⟨(run conn e db0).2.engine, "calmou_db", [.call callUser (some .userAlreadyExists)]⟩) := by
  obtain ⟨⟨e1, h1⟩, hx⟩ := run_normal_user h
  have h2 : Engine.createUser conn (run conn e db0).2.engine "calmou_db" appUserStored =
      .error .userAlreadyExists := createUser_again h1 hx
  rw [run_eq conn (run conn e db0).2.engine db1, h2]

/-- The second run after a first run on the empty engine, evaluated. -/
theorem second_run_aborts_unchanged_witness :
    (run (plainConn false []) Engine.empty "test").1 = .normal () ∧
    run (plainConn false []) (run (plainConn false []) Engine.empty "test").2.engine "admin" =
      (.thrown .userAlreadyExists,
        ⟨(run (plainConn false []) Engine.empty "test").2.engine, "calmou_db",
          [.call callUser (some .userAlreadyExists)]⟩) :=
  ⟨by decide, second_run_aborts_unchanged (plainConn false []) Engine.empty "test" "admin"
    (by decide)⟩

/-- C3 (as stated, refuted): when `calmou_app` already exists, `createUser` fails
and no `createCollection` call follows, so neither collection exists afterwards;
and when `createCollection('usuarios')` fails, `createCollection('meditacoes')`
is not attempted. -/
theorem failed_call_skips_the_rest :
    calls (run (plainConn true []) engineWithUser "test").2.trace =
      [(callUser, some .userAlreadyExists)] ∧
    (run (plainConn true []) engineWithUser "test").2.engine.findCollection
      "calmou_db" "usuarios" = none ∧
    (run (plainConn true []) engineWithUser "test").2.engine.findCollection
      "calmou_db" "meditacoes" = none ∧
    calls (run (plainConn true []) engineWithUsuarios "test").2.trace =
      [(callUser, none), (callUsuarios, some .namespaceExists)] ∧
    (run (plainConn true []) engineWithUsuarios "test").2.engine.findCollection
      "calmou_db" "meditacoes" = none := by
  decide

/-- C3 (amended): a create call that fails is the last thing the run does: the run
ends with that exception and exit status 1; if the failed call is `createUser`,
it is the only call, nothing is printed and the engine state is unchanged; if it
is `createCollection('usuarios')`, no call for `meditacoes` is issued. -/
theorem failed_call_ends_run (conn : Conn) (e : Engine) (db0 : String) (cmd : Cmd)
    (err : MongoError) (h : (cmd, some err) ∈ calls (run conn e db0).2.trace) :
    (run conn e db0).1 = .thrown err ∧
    exitStatus (run conn e db0).1 = 1 ∧
    (∃ pre, (run conn e db0).2.trace = pre ++ [.call cmd (some err)]) ∧
    (cmd = callUser →
      calls (run conn e db0).2.trace = [(callUser, some err)] ∧
      prints (run conn e db0).2.trace = [] ∧
      (run conn e db0).2.engine = e) ∧
    (cmd = callUsuarios →
      calls (run conn e db0).2.trace = [(callUser, none), (callUsuarios, some err)] ∧
      (run conn e db0).2.engine.findCollection "calmou_db" "meditacoes" =
        e.findCollection "calmou_db" "meditacoes") := by
  have hne1 : callUsuarios ≠ callUser := by decide
  have hne2 : callMeditacoes ≠ callUser := by decide
  have hne3 : callMeditacoes ≠ callUsuarios := by decide
  rcases run_cases conn e db0 with ⟨err1, _, hr⟩ | ⟨e1, err1, h1, _, hr⟩ |
    ⟨e1, e2, err1, _, _, _, hr⟩ | ⟨e1, e2, e3, _, _, _, hr⟩
  · rw [hr] at h ⊢
    simp only [calls, List.mem_singleton, Prod.mk.injEq, Option.some.injEq] at h
    obtain ⟨rfl, rfl⟩ := h
    refine ⟨rfl, rfl, ⟨[], rfl⟩, fun _ => ⟨rfl, rfl, rfl⟩, fun hc => absurd hc.symm hne1⟩
  · rw [hr] at h ⊢
    simp only [calls, List.mem_cons, List.mem_singleton, Prod.mk.injEq, Option.some.injEq,
      List.not_mem_nil, or_false, reduceCtorEq, and_false, false_or] at h
    obtain ⟨rfl, rfl⟩ := h
    refine ⟨rfl, rfl, ⟨[.call callUser none, .print msgDatabase, .print msgUser], rfl⟩,
      fun hc => absurd hc hne1, fun _ => ⟨rfl, ?_⟩⟩
    simp only [Engine.findCollection, (createUser_ok h1).2]
  · rw [hr] at h ⊢
    simp only [calls, List.mem_cons, List.mem_singleton, Prod.mk.injEq, Option.some.injEq,
      List.not_mem_nil, or_false, reduceCtorEq, and_false, false_or] at h
    obtain ⟨rfl, rfl⟩ := h
    exact ⟨rfl, rfl,
      ⟨[.call callUser none, .print msgDatabase, .print msgUser, .call callUsuarios none], rfl⟩,
      fun hc => absurd hc hne2, fun hc => absurd hc hne3⟩
  · rw [hr] at h
    simp [calls] at h

/-- A run on an engine where `calmou_app` exists: the failed `createUser` ends it. -/
theorem failed_call_ends_run_witness :
    (callUser, some MongoError.userAlreadyExists) ∈
      calls (run (plainConn true []) engineWithUser "test").2.trace ∧
    (run (plainConn true []) engineWithUser "test").1 = .thrown .userAlreadyExists ∧
    (run (plainConn true []) engineWithUser "test").2.engine = engineWithUser :=
  ⟨by decide,
   (failed_call_ends_run (plainConn true []) engineWithUser "test" callUser
      .userAlreadyExists (by decide)).1,
   ((failed_call_ends_run (plainConn true []) engineWithUser "test" callUser
      .userAlreadyExists (by decide)).2.2.2.1 rfl).2.2⟩

/-- C4: when a principal `calmou_app` already exists in `calmou_db` with stored
credential `c`, whatever `c` is, its stored credential after the run is still `c`. -/
theorem credential_preserved (conn : Conn) (e : Engine) (db0 : String) (c : String)
    (h : (e.findUser "calmou_db" "calmou_app").map User.credential = some c) :
    ((run conn e db0).2.engine.findUser "calmou_db" "calmou_app").map User.credential =
      some c := by
  cases hu : e.findUser "calmou_db" "calmou_app" with
  | none => simp [hu] at h
  | some u =>
    obtain ⟨err, hr⟩ := run_of_existing_user conn db0 hu
    rw [hr]
    exact h

/-- A stored credential other than `calmou_app_2024` survives the run. -/
theorem credential_preserved_witness :
    (engineWithUser.findUser "calmou_db" "calmou_app").map User.credential = some "old_secret" ∧
    ((run (plainConn false []) engineWithUser "test").2.engine.findUser
      "calmou_db" "calmou_app").map User.credential = some "old_secret" :=
  ⟨by decide, credential_preserved (plainConn false []) engineWithUser "test" "old_secret"
    (by decide)⟩

/-- C5 (as stated, refuted): when `calmou_app` already exists the only object with
an outcome is the principal; the two collections have none. -/
theorem collections_without_outcome :
    (calls (run (plainConn true []) engineWithUser "test").2.trace).map
      (fun c => c.1.target) = [ObjectRef.principal "calmou_db" "calmou_app"] ∧
    ObjectRef.collection "calmou_db" "usuarios" ∉
      (calls (run (plainConn true []) engineWithUser "test").2.trace).map
        (fun c => c.1.target) ∧
    ObjectRef.collection "calmou_db" "meditacoes" ∉
      (calls (run (plainConn true []) engineWithUser "test").2.trace).map
        (fun c => c.1.target) := by
  decide

/-- C5 (amended): for every initial engine state the create calls of a run are,
in order, `createUser` for `calmou_app`, `createCollection` for `usuarios` and
`createCollection` for `meditacoes`, cut off after the first call that fails:
no other object is attempted, none is attempted twice, and all three are
attempted exactly when the first two calls succeed. -/
theorem calls_cut_at_first_failure (conn : Conn) (e : Engine) (db0 : String) :
    ((∃ err, calls (run conn e db0).2.trace = [(callUser, some err)]) ∨
     (∃ err, calls (run conn e db0).2.trace =
        [(callUser, none), (callUsuarios, some err)]) ∨
     (∃ res, calls (run conn e db0).2.trace =
        [(callUser, none), (callUsuarios, none), (callMeditacoes, res)])) ∧
    callUser.target = .principal "calmou_db" "calmou_app" ∧
    callUsuarios.target = .collection "calmou_db" "usuarios" ∧
    callMeditacoes.target = .collection "calmou_db" "meditacoes" := by
  refine ⟨?_, rfl, rfl, rfl⟩
  rcases run_cases conn e db0 with ⟨err, _, hr⟩ | ⟨e1, err, _, _, hr⟩ |
    ⟨e1, e2, err, _, _, _, hr⟩ | ⟨e1, e2, e3, _, _, _, hr⟩
  · exact Or.inl ⟨err, by rw [hr]; rfl⟩
  · exact Or.inr (Or.inl ⟨err, by rw [hr]; rfl⟩)
  · exact Or.inr (Or.inr ⟨some err, by rw [hr]; rfl⟩)
  · exact Or.inr (Or.inr ⟨none, by rw [hr]; rfl⟩)

/-- C6: for every initial engine state, the run exits with status 0 exactly when
no create call failed, and the line 'MongoDB inicializado com sucesso!' is printed
exactly when no create call failed; in that case the three calls were all issued
and succeeded.  Otherwise the exit status is 1 and the line is not printed. -/
theorem success_iff_no_call_failed (conn : Conn) (e : Engine) (db0 : String) :
    (exitStatus (run conn e db0).1 = 0 ↔ ∀ c ∈ calls (run conn e db0).2.trace, c.2 = none) ∧
    (msgSuccess ∈ prints (run conn e db0).2.trace ↔
      ∀ c ∈ calls (run conn e db0).2.trace, c.2 = none) ∧
    ((∀ c ∈ calls (run conn e db0).2.trace, c.2 = none) ↔
      calls (run conn e db0).2.trace =
        [(callUser, none), (callUsuarios, none), (callMeditacoes, none)]) ∧
    ((∀ c ∈ calls (run conn e db0).2.trace, c.2 = none) ∨
      (exitStatus (run conn e db0).1 = 1 ∧ msgSuccess ∉ prints (run conn e db0).2.trace)) := by
  have hm1 : msgSuccess ≠ msgDatabase := by decide
  have hm2 : msgSuccess ≠ msgUser := by decide
  rcases run_cases conn e db0 with ⟨err, _, hr⟩ | ⟨e1, err, _, _, hr⟩ |
    ⟨e1, e2, err, _, _, _, hr⟩ | ⟨e1, e2, e3, _, _, _, hr⟩
  · rw [hr]; simp [calls, prints, exitStatus]
  · rw [hr]; simp [calls, prints, exitStatus, hm1, hm2]
  · rw [hr]; simp [calls, prints, exitStatus, hm1, hm2]
  · rw [hr]; simp [calls, prints, exitStatus]

/-- C7 (as stated, refuted): the `pwd` field of the descriptor is not a reference
resolved at run time; it embeds the plaintext `calmou_app_2024`. -/
theorem password_is_plaintext :
    appUser.pwd.isSecretRef = false ∧ appUser.pwd.plaintext = some "calmou_app_2024" := by
  decide

/-- C7 (amended): the credential passed for `calmou_app` is the string literal
`calmou_app_2024` written in the source; it has that value in every environment,
and whenever the `createUser` call succeeds it is the credential stored for
`calmou_app`. -/
theorem password_literal_stored (conn : Conn) (e : Engine) (db0 : String) :
    appUser.pwd = .strLit "calmou_app_2024" ∧
    appUser.pwd.eval conn.env = some "calmou_app_2024" ∧
    ((callUser, none) ∈ calls (run conn e db0).2.trace →
      ((run conn e db0).2.engine.findUser "calmou_db" "calmou_app").map User.credential =
        some "calmou_app_2024") := by
  refine ⟨rfl, rfl, fun h => ?_⟩
  rcases run_findUser conn e db0 "calmou_db" "calmou_app" with hsame | ⟨_, _, _, hnew⟩
  · rcases run_cases conn e db0 with ⟨err, _, hr⟩ | ⟨e1, err, h1, _, hr⟩ |
      ⟨e1, e2, err, h1, h2, _, hr⟩ | ⟨e1, e2, e3, h1, h2, h3, hr⟩
    · rw [hr] at h; simp [calls] at h
    · exfalso
      obtain ⟨hf, rfl⟩ := createUser_ok h1
      rw [hr, findUser_stored] at hsame
      simp only [appUserStored] at hf hsame
      simp [hf] at hsame
    · exfalso
      obtain ⟨hf, rfl⟩ := createUser_ok h1
      have hu := createCollection_users h2
      rw [hr] at hsame
      rw [findUser_congr hu, findUser_stored] at hsame
      simp only [appUserStored] at hf hsame
      simp [hf] at hsame
    · exfalso
      obtain ⟨hf, rfl⟩ := createUser_ok h1
      have hu := (createCollection_users h3).trans (createCollection_users h2)
      rw [hr] at hsame
      rw [findUser_congr hu, findUser_stored] at hsame
      simp only [appUserStored] at hf hsame
      simp [hf] at hsame
  · rw [hnew]; rfl

/-- The environment offers another secret, and the stored credential is the
literal all the same. -/
theorem password_literal_stored_witness :
    (callUser, none) ∈
      calls (run (plainConn true [("CALMOU_APP_PWD", "s3cret")]) Engine.empty "test").2.trace ∧
    ((run (plainConn true [("CALMOU_APP_PWD", "s3cret")]) Engine.empty "test").2.engine.findUser
      "calmou_db" "calmou_app").map User.credential = some "calmou_app_2024" :=
  ⟨by decide,
   (password_literal_stored (plainConn true [("CALMOU_APP_PWD", "s3cret")]) Engine.empty
      "test").2.2 (by decide)⟩

/-- C8 (code defect): line 5, commented "Criar banco de dados", writes nothing:
the engine after `db = db.getSiblingDB(...)` is the engine before.  The script is
lines 5-19 followed by lines 20-27, and in every run the statements up to line 19
leave the collections of the engine exactly as they were, so the line
'Banco de dados calmou_db criado' is printed with nothing written to `calmou_db`
in that run.  On the empty engine the state the line is printed in has no
collection and no database `calmou_db`; and when `createCollection('usuarios')`
is then refused, the whole run ends, with exit status 1, having reported the
database as created while it holds nothing and does not exist. -/
theorem database_reported_before_any_write :
    (∀ (conn : Conn) (s : Shell),
      ((getSiblingDB "calmou_db" >>= assignDb) conn s).2.engine = s.engine) ∧
    initMongo = (initMongoToLine19 >>= fun _ => initMongoFromLine20) ∧
    (∀ (conn : Conn) (s : Shell),
      (initMongoToLine19 conn s).2.engine.collections = s.engine.collections) ∧
    initMongoToLine19 (plainConn true []) { engine := Engine.empty, db := "test", trace := [] } =
      (.normal (),
        { engine := ⟨[("calmou_db", appUserStored)], []⟩, db := "calmou_db",
          trace := [.call callUser none, .print msgDatabase] }) ∧
    (initMongoToLine19 (plainConn true [])
      { engine := Engine.empty, db := "test", trace := [] }).2.engine.collectionsOf "calmou_db"
      = [] ∧
    (initMongoToLine19 (plainConn true [])
      { engine := Engine.empty, db := "test", trace := [] }).2.engine.hasDatabase "calmou_db"
      = false ∧
    run refusingUsuarios Engine.empty "test" =
      (.thrown .unauthorized,
        { engine := ⟨[("calmou_db", appUserStored)], []⟩, db := "calmou_db",
          trace := [.call callUser none, .print msgDatabase, .print msgUser,
                    .call callUsuarios (some .unauthorized)] }) ∧
    msgDatabase ∈ prints (run refusingUsuarios Engine.empty "test").2.trace ∧
    exitStatus (run refusingUsuarios Engine.empty "test").1 = 1 ∧
    (run refusingUsuarios Engine.empty "test").2.engine.collections = [] ∧
    (run refusingUsuarios Engine.empty "test").2.engine.hasDatabase "calmou_db" = false := by
  refine ⟨fun _ _ => rfl, ?_, ?_, by decide, by decide, by decide, by decide, by decide,
    by decide, by decide, by decide⟩
  · funext conn s
    simp only [initMongo, initMongoToLine19, initMongoFromLine20, bind, Script.bind,
      getSiblingDB, assignDb]
    rcases createUser appUser conn { engine := s.engine, db := "calmou_db", trace := s.trace }
      with ⟨c, s1⟩
    cases c <;> rfl
  · intro conn s
    simp only [initMongoToLine19, bind, Script.bind, getSiblingDB, assignDb, createUser,
      appUser, JsExpr.eval]
    cases h1 : Engine.createUser conn s.engine "calmou_db"
        ⟨"calmou_app", "calmou_app_2024", [⟨"readWrite", "calmou_db"⟩]⟩ with
    | error err => rfl
    | ok e1 =>
      obtain ⟨_, rfl⟩ := createUser_ok h1
      rfl

/-- C9: every `createCollection` call of a run gives the name alone; and for each
of `usuarios` and `meditacoes` the collection found after the run is the one that
was there before, untouched, or else the name was free and the collection is the
bare one: no validator, no document and no index but the automatic `_id_`. -/
theorem collections_created_bare (conn : Conn) (e : Engine) (db0 : String) :
    (∀ c ∈ calls (run conn e db0).2.trace, ∀ d n o,
      c.1 = Cmd.createCollection d n o → o = none) ∧
    ((run conn e db0).2.engine.findCollection "calmou_db" "usuarios" =
        e.findCollection "calmou_db" "usuarios" ∨
      (e.findCollection "calmou_db" "usuarios" = none ∧
        (run conn e db0).2.engine.findCollection "calmou_db" "usuarios" =
          some { name := "usuarios", validator := none, indexes := ["_id_"], docs := [] })) ∧
    ((run conn e db0).2.engine.findCollection "calmou_db" "meditacoes" =
        e.findCollection "calmou_db" "meditacoes" ∨
      (e.findCollection "calmou_db" "meditacoes" = none ∧
        (run conn e db0).2.engine.findCollection "calmou_db" "meditacoes" =
          some { name := "meditacoes", validator := none, indexes := ["_id_"], docs := [] })) := by
  refine ⟨?_, ?_, ?_⟩
  · rcases run_cases conn e db0 with ⟨err, _, hr⟩ | ⟨e1, err, _, _, hr⟩ |
      ⟨e1, e2, err, _, _, _, hr⟩ | ⟨e1, e2, e3, _, _, _, hr⟩ <;>
    · rw [hr]
      intro c hc d n o hcmd
      simp only [calls, List.mem_cons, List.mem_singleton, List.not_mem_nil, or_false] at hc
      rcases hc with rfl | rfl | rfl <;>
        simp [callUser, callUsuarios, callMeditacoes] at hcmd <;> simp [hcmd]
  · rcases run_findCollection conn e db0 "calmou_db" "usuarios" with h | ⟨h1, _, _, h2⟩
    · exact Or.inl h
    · exact Or.inr ⟨h1, h2⟩
  · rcases run_findCollection conn e db0 "calmou_db" "meditacoes" with h | ⟨h1, _, _, h2⟩
    · exact Or.inl h
    · exact Or.inr ⟨h1, h2⟩

/-- C10: for every initial engine state and however the run ends, all users and
collections stored before the run are still stored, unchanged and in place, the
run only appending to them; every database other than `calmou_db` has the same
users and collections; every principal other than `calmou_app` of `calmou_db` is
found as before; every collection of `calmou_db` other than `usuarios` and
`meditacoes` is found as before; and any collection that existed, in whatever
database and with whatever documents, is found unchanged. -/
theorem run_frame (conn : Conn) (e : Engine) (db0 : String) :
    (∃ us cs, (run conn e db0).2.engine = ⟨e.users ++ us, e.collections ++ cs⟩) ∧
    (∀ d, d ≠ "calmou_db" →
      (run conn e db0).2.engine.usersOf d = e.usersOf d ∧
      (run conn e db0).2.engine.collectionsOf d = e.collectionsOf d) ∧
    (∀ d n, ¬ (d = "calmou_db" ∧ n = "calmou_app") →
      (run conn e db0).2.engine.findUser d n = e.findUser d n) ∧
    (∀ n, n ≠ "usuarios" → n ≠ "meditacoes" →
      (run conn e db0).2.engine.findCollection "calmou_db" n =
        e.findCollection "calmou_db" n) ∧
    (∀ d n c, e.findCollection d n = some c →
      (run conn e db0).2.engine.findCollection d n = some c) ∧
    (∀ d n u, e.findUser d n = some u →
      (run conn e db0).2.engine.findUser d n = some u) ∧
    ((run conn e db0).2.engine.usersOf "calmou_db").filter
        (fun u => decide (u.user ≠ "calmou_app")) =
      (e.usersOf "calmou_db").filter (fun u => decide (u.user ≠ "calmou_app")) ∧
    ((run conn e db0).2.engine.collectionsOf "calmou_db").filter
        (fun c => decide (c.name ≠ "usuarios" ∧ c.name ≠ "meditacoes")) =
      (e.collectionsOf "calmou_db").filter
        (fun c => decide (c.name ≠ "usuarios" ∧ c.name ≠ "meditacoes")) := by
  obtain ⟨us, cs, hr, hus, hcs⟩ := run_engine_shape conn e db0
  have husdb : ∀ p ∈ us, p.1 = "calmou_db" ∧ p.2.user = "calmou_app" := by
    intro p hp
    rw [(hus p hp).1]
    exact ⟨rfl, rfl⟩
  have hcsdb : ∀ p ∈ cs, p.1 = "calmou_db" ∧ (p.2.name = "usuarios" ∨ p.2.name = "meditacoes") := by
    intro p hp
    rcases hcs p hp with ⟨h, _⟩ | ⟨h, _⟩
    · rw [h]; exact ⟨rfl, Or.inl rfl⟩
    · rw [h]; exact ⟨rfl, Or.inr rfl⟩
  refine ⟨⟨us, cs, hr⟩, ?_, ?_, ?_, ?_, ?_, ?_, ?_⟩
  · intro d hd
    rw [hr]
    constructor
    · have : us.filter (fun p => decide (p.1 = d)) = [] := by
        rw [List.filter_eq_nil_iff]
        intro p hp hpd
        simp only [decide_eq_true_eq] at hpd
        exact hd (hpd ▸ (husdb p hp).1)
      simp [Engine.usersOf, List.filter_append, this]
    · have : cs.filter (fun p => decide (p.1 = d)) = [] := by
        rw [List.filter_eq_nil_iff]
        intro p hp hpd
        simp only [decide_eq_true_eq] at hpd
        exact hd (hpd ▸ (hcsdb p hp).1)
      simp [Engine.collectionsOf, List.filter_append, this]
  · intro d n hdn
    rcases run_findUser conn e db0 d n with h | ⟨_, h1, h2, _⟩
    · exact h
    · exact absurd ⟨h1, h2⟩ hdn
  · intro n hn1 hn2
    rcases run_findCollection conn e db0 "calmou_db" n with h | ⟨_, _, h1 | h1, _⟩
    · exact h
    · exact absurd h1 hn1
    · exact absurd h1 hn2
  · intro d n c hc
    rcases run_findCollection conn e db0 d n with h | ⟨h1, _⟩
    · rw [h, hc]
    · rw [h1] at hc; cases hc
  · intro d n u hu
    rcases run_findUser conn e db0 d n with h | ⟨h1, _⟩
    · rw [h, hu]
    · rw [h1] at hu; cases hu
  · rw [hr]
    have : (List.map Prod.snd (us.filter (fun p => decide (p.1 = "calmou_db")))).filter
        (fun u => decide (u.user ≠ "calmou_app")) = [] := by
      rw [List.filter_eq_nil_iff]
      intro u hu hne
      simp only [List.mem_map, List.mem_filter] at hu
      obtain ⟨p, ⟨hp, _⟩, rfl⟩ := hu
      simp only [ne_eq, decide_not, Bool.not_eq_true', decide_eq_false_iff_not] at hne
      exact hne (husdb p hp).2
    simp only [Engine.usersOf, List.filter_append, List.map_append, this, List.append_nil]
  · rw [hr]
    have : (List.map Prod.snd (cs.filter (fun p => decide (p.1 = "calmou_db")))).filter
        (fun c => decide (c.name ≠ "usuarios" ∧ c.name ≠ "meditacoes")) = [] := by
      rw [List.filter_eq_nil_iff]
      intro c hc hne
      simp only [List.mem_map, List.mem_filter] at hc
      obtain ⟨p, ⟨hp, _⟩, rfl⟩ := hc
      simp only [ne_eq, decide_eq_true_eq] at hne
      rcases (hcsdb p hp).2 with h | h
      · exact hne.1 h
      · exact hne.2 h
    simp only [Engine.collectionsOf, List.filter_append, List.map_append, this, List.append_nil]

/-- On a populated engine the other database, the other user and the existing
collections, documents included, are as before. -/
theorem run_frame_witness :
    (run (plainConn true []) enginePopulated "test").2.engine.collectionsOf "loja" =
      enginePopulated.collectionsOf "loja" ∧
    (run (plainConn true []) enginePopulated "test").2.engine.findUser "calmou_db" "report" =
      enginePopulated.findUser "calmou_db" "report" ∧
    (run (plainConn true []) enginePopulated "test").2.engine.findCollection "calmou_db" "humor" =
      enginePopulated.findCollection "calmou_db" "humor" ∧
    (run (plainConn true []) enginePopulated "test").2.engine.findCollection
        "calmou_db" "usuarios" =
      some { name := "usuarios", validator := none, indexes := ["_id_", "email_1"],
             docs := [[("email", "a@b.c")], [("email", "d@e.f")]] } :=
  ⟨((run_frame (plainConn true []) enginePopulated "test").2.1 "loja" (by decide)).2,
   (run_frame (plainConn true []) enginePopulated "test").2.2.1 "calmou_db" "report" (by decide),
   (run_frame (plainConn true []) enginePopulated "test").2.2.2.1 "humor" (by decide) (by decide),
   (run_frame (plainConn true []) enginePopulated "test").2.2.2.2.1 "calmou_db" "usuarios" _
     (by decide)⟩

end InitMongo
